import Mathlib

/-
  Shallow embedding of the Streaming Lifecycle and Adaptive Resilience Engine of
  the Virtual-presence-Avatar repository (src/modules/mediamtx_camera.py and
  src/modules/mediamtx_recorder.py), together with theorems settling the
  claims about it.

  Modelling conventions:
  - wall-clock instants (Python time.time, seconds as a float) are integers
    in milliseconds, so that the 0.001-second history offset and the
    second-valued cooldowns are exact; every duration constant of the source
    is therefore scaled by 1000 (30 s becomes 30000, and so on);
  - dimensionless measurements (packet-loss percent, RTT in ms, CPU percent)
    are rationals, compared but never combined arithmetically;
  - Python dictionaries keyed by error-category strings are association lists
    with lookup semantics matching dict.get(k, default) and the in operator;
  - external process behaviour (whether a spawned process exits within a
    timeout, whether a subprocess call raises) is an explicit environment
    argument, since it is outside the program;
  - side effects relevant to the claims (persistent-settings writes, process
    signals, remediation actions) are returned as explicit event lists.
-/

namespace AvatarTank

/-- Wall-clock time in milliseconds (time.time scaled by 1000). -/
abbrev Time := ℤ

/- ====================================================================
   StreamStateManager  (src/modules/mediamtx_camera.py, lines 22-148)
   ==================================================================== -/

/-- StreamState enum (lines 22-28). -/
inductive StreamState where
  | stopped
  | starting
  | active
  | stopping
  | error
deriving DecidableEq, Repr

/-- StreamStateInfo dataclass (lines 30-37).  Optional fields default to
None and retry_count defaults to 0, as in the dataclass declaration. -/
structure StreamStateInfo where
  state : StreamState
  timestamp : Time
  process_id : Option Nat := none
  error_message : Option String := none
  retry_count : Nat := 0
deriving DecidableEq, Repr

/-- The mutable fields of StreamStateManager (lines 42-50).  The event
callback list is omitted: callbacks receive the transition but cannot
change the manager through the emission path, and every exception they
raise is swallowed (lines 127-133). -/
structure StreamStateManager where
  state : StreamState
  state_info : StreamStateInfo
  state_history : List StreamStateInfo
deriving DecidableEq, Repr

/-- The manager as constructed by StreamStateManager.__init__ (lines 42-50). -/
def StreamStateManager.init (t0 : Time) : StreamStateManager :=
  { state := .stopped
    state_info := { state := .stopped, timestamp := t0 }
    state_history := [] }

/-- StreamStateManager._is_valid_transition (lines 105-114): the hard-coded
transition table. -/
def StreamStateManager.is_valid_transition (from_state to_state : StreamState) : Bool :=
  let targets : List StreamState :=
    match from_state with
    | .stopped => [.starting, .error]
    | .starting => [.active, .error, .stopping]
    | .active => [.stopping, .error]
    | .stopping => [.stopped, .error]
    | .error => [.stopped, .starting]
  targets.contains to_state

/-- StreamStateManager.set_state (lines 68-103).  Returns the Python return
value together with the manager after the call.  On an invalid transition it
returns False at line 76 before any mutation.  On a valid transition it
installs the new StreamStateInfo (carrying over retry_count, line 85),
appends a history entry for the outgoing state stamped 0.001 s before the
new snapshot (lines 89-92), and trims the history to the last 10 entries
(lines 95-96). -/
def StreamStateManager.set_state (m : StreamStateManager) (new_state : StreamState)
    (now : Time) (process_id : Option Nat) (error_message : Option String) :
    Bool × StreamStateManager :=
  let old_state := m.state
  if ¬ StreamStateManager.is_valid_transition old_state new_state then
    (false, m)
  else
    let new_info : StreamStateInfo :=
      { state := new_state
        timestamp := now
        process_id := process_id
        error_message := error_message
        retry_count := m.state_info.retry_count }
    let hist_entry : StreamStateInfo :=
      { state := old_state, timestamp := new_info.timestamp - 1 }
    let hist := m.state_history ++ [hist_entry]
    let hist := if hist.length > 10 then hist.drop 1 else hist
    (true, { state := new_state, state_info := new_info, state_history := hist })

/-- StreamStateManager.increment_retry_count (lines 135-138). -/
def StreamStateManager.increment_retry_count (m : StreamStateManager) : StreamStateManager :=
  { m with state_info := { m.state_info with retry_count := m.state_info.retry_count + 1 } }

/-- StreamStateManager.reset_retry_count (lines 140-143). -/
def StreamStateManager.reset_retry_count (m : StreamStateManager) : StreamStateManager :=
  { m with state_info := { m.state_info with retry_count := 0 } }

/-- The transition table exactly as the claim states it:
Stopped -> stopped/starting/error targets and so on.  This definition follows
the words of the claim (and of spec section 4.1); the source-derived table is
StreamStateManager.is_valid_transition above, and the C1 theorem compares the
two through set_state. -/
def claimed_transition_table (s t : StreamState) : Prop :=
  match s with
  | .stopped => t = .starting ∨ t = .error
  | .starting => t = .active ∨ t = .error ∨ t = .stopping
  | .active => t = .stopping ∨ t = .error
  | .stopping => t = .stopped ∨ t = .error
  | .error => t = .stopped ∨ t = .starting

instance (s t : StreamState) : Decidable (claimed_transition_table s t) := by
  unfold claimed_transition_table
  cases s <;> infer_instance

/- ====================================================================
   Quality configuration and persistence
   (src/modules/mediamtx_camera.py, lines 672-735 and 939-1044)
   ==================================================================== -/

/-- A write to the persistent settings store: the (resolution, framerate)
pair handed to avatar_state by save_camera_settings (lines 699-714). -/
abbrev PersistEvent := String × Nat

/-- The module globals current_resolution and current_framerate
(lines 722-724). -/
structure QualityState where
  current_resolution : String
  current_framerate : Nat
deriving DecidableEq, Repr

/-- The keys of the camera_settings dict (lines 716-720). -/
def camera_settings_keys : List String := ["320p", "480p", "720p"]

/-- save_camera_settings (lines 699-714): one write of the current pair to
the persistent store (avatar_state set_last_resolution / set_last_fps). -/
def save_camera_settings (qs : QualityState) : List PersistEvent :=
  [(qs.current_resolution, qs.current_framerate)]

/-- MediaMTXCameraManager.set_resolution (lines 939-992).  streaming_active,
the success of stop_streaming / start_streaming, and whether the restart
block raises are environment inputs.  Returns (Python return value, final
quality globals, persistent-store writes in order).  On the revert paths
(stop failure, start failure, exception: lines 963-966, 978-981, 985-988)
the old resolution is restored and saved again. -/
def MediaMTXCameraManager.set_resolution (qs : QualityState) (resolution : String)
    (streaming_active stop_ok start_ok raises : Bool) :
    Bool × QualityState × List PersistEvent :=
  if camera_settings_keys.contains resolution then
    let qs1 : QualityState := { qs with current_resolution := resolution }
    let w1 := save_camera_settings qs1
    if streaming_active then
      if raises then (false, qs, w1 ++ save_camera_settings qs)
      else if ¬ stop_ok then (false, qs, w1 ++ save_camera_settings qs)
      else if start_ok then (true, qs1, w1)
      else (false, qs, w1 ++ save_camera_settings qs)
    else (true, qs1, w1)
  else (false, qs, [])

/-- MediaMTXCameraManager.set_framerate (lines 994-1044).  Unlike
set_resolution it performs no validity check on the new value; otherwise the
structure is identical. -/
def MediaMTXCameraManager.set_framerate (qs : QualityState) (framerate : Nat)
    (streaming_active stop_ok start_ok raises : Bool) :
    Bool × QualityState × List PersistEvent :=
  let qs1 : QualityState := { qs with current_framerate := framerate }
  let w1 := save_camera_settings qs1
  if streaming_active then
    if raises then (false, qs, w1 ++ save_camera_settings qs)
    else if ¬ stop_ok then (false, qs, w1 ++ save_camera_settings qs)
    else if start_ok then (true, qs1, w1)
    else (false, qs, w1 ++ save_camera_settings qs)
  else (true, qs1, w1)

/- ====================================================================
   ErrorRecoveryManager  (src/modules/mediamtx_camera.py, lines 151-276)
   ==================================================================== -/

/-- dict.get(k, default) on an association list. -/
def dict_get {α : Type} (d : List (String × α)) (k : String) (default : α) : α :=
  match d.lookup k with
  | some v => v
  | none => default

/-- Assignment d[k] = v on an association list. -/
def dict_set {α : Type} (d : List (String × α)) (k : String) (v : α) :
    List (String × α) :=
  (k, v) :: d.filter (fun p => ¬ p.1 = k)

/-- ErrorRecoveryManager.__init__ constants (lines 154-158). -/
def max_recovery_attempts : Nat := 3

/-- Recovery cooldown of 30 seconds (line 157), in milliseconds. -/
def recovery_cooldown : Time := 30000

/-- The two mutable dicts of ErrorRecoveryManager (lines 155, 158). -/
structure ErrorRecoveryManager where
  recovery_attempts : List (String × Nat)
  last_recovery_time : List (String × Time)
deriving DecidableEq, Repr

/-- The manager as constructed (lines 154-158): both dicts empty. -/
def ErrorRecoveryManager.init : ErrorRecoveryManager := ⟨[], []⟩

/-- ErrorRecoveryManager.handle_network_timeout_error (lines 182-206).
The body calls the bare names set_resolution and set_framerate, which are
not defined at module scope in mediamtx_camera.py (the only definitions by
those names are methods of MediaMTXCameraManager); the first such call
raises NameError, which the except clause at lines 204-206 turns into
False.  When no call is reached (resolution already at the bottom tier and
framerate at most 10) the handler returns True.  No path touches the
quality globals or the persistent store. -/
def handle_network_timeout_error (qs : QualityState) : Bool × QualityState × List PersistEvent :=
  if qs.current_resolution = "720p" then (false, qs, [])
  else if qs.current_resolution = "480p" then (false, qs, [])
  else if qs.current_framerate > 10 then (false, qs, [])
  else (true, qs, [])

/-- ErrorRecoveryManager.should_attempt_recovery (lines 233-247): the
cooldown refusal is checked first, then the attempt cap. -/
def ErrorRecoveryManager.should_attempt_recovery (m : ErrorRecoveryManager)
    (error_type : String) (now : Time) : Bool :=
  let in_cooldown :=
    match m.last_recovery_time.lookup error_type with
    | some t => decide (now - t < recovery_cooldown)
    | none => false
  if in_cooldown then false
  else if dict_get m.recovery_attempts error_type 0 ≥ max_recovery_attempts then false
  else true

/-- ErrorRecoveryManager.attempt_recovery (lines 249-266).  Returns the
Python return value, the manager and quality globals after the call, and
the list of remediation handlers actually run.  env_ok abstracts the
outcome of the two handlers whose success depends only on external
subprocess calls (handle_camera_busy_error, lines 160-180, and
handle_mediamtx_crash, lines 208-231); handle_network_timeout_error is
modelled exactly.  On refusal nothing is mutated and no handler runs. -/
def ErrorRecoveryManager.attempt_recovery (m : ErrorRecoveryManager) (qs : QualityState)
    (error_type : String) (now : Time) (env_ok : Bool) :
    Bool × ErrorRecoveryManager × QualityState × List String :=
  if ¬ m.should_attempt_recovery error_type now then (false, m, qs, [])
  else
    let m1 : ErrorRecoveryManager :=
      { recovery_attempts :=
          dict_set m.recovery_attempts error_type (dict_get m.recovery_attempts error_type 0 + 1)
        last_recovery_time := dict_set m.last_recovery_time error_type now }
    if error_type = "camera_busy" then (env_ok, m1, qs, ["camera_busy"])
    else if error_type = "network_timeout" then
      let r := handle_network_timeout_error qs
      (r.1, m1, r.2.1, ["network_timeout"])
    else if error_type = "mediamtx_crash" then (env_ok, m1, qs, ["mediamtx_crash"])
    else (false, m1, qs, [])

/-- ErrorRecoveryManager.reset_recovery_attempts (lines 268-273). -/
def ErrorRecoveryManager.reset_recovery_attempts (m : ErrorRecoveryManager)
    (error_type : Option String) : ErrorRecoveryManager :=
  match error_type with
  | some e => { m with recovery_attempts := dict_set m.recovery_attempts e 0 }
  | none => { m with recovery_attempts := [] }

/- ====================================================================
   FrameWatchdog  (src/modules/mediamtx_camera.py, lines 279-330)
   ==================================================================== -/

/-- FrameWatchdog.watchdog_timeout of 10 seconds (line 284), in
milliseconds. -/
def watchdog_timeout : Time := 10000

/-- One iteration of the watchdog_loop body (lines 296-311), executed every
second while the watchdog is active.  State threaded through: the
last_frame_time field, the global error recovery manager, and the quality
globals (reached through the network_timeout handler).  The final component
lists the error categories for which attempt_recovery was invoked on this
tick. -/
def watchdog_tick (last_frame_time : Time) (m : ErrorRecoveryManager) (qs : QualityState)
    (now : Time) (env_ok : Bool) :
    Time × ErrorRecoveryManager × QualityState × List String :=
  if now - last_frame_time > watchdog_timeout then
    let r := m.attempt_recovery qs "network_timeout" now env_ok
    (now, r.2.1, r.2.2.1, ["network_timeout"])
  else
    (last_frame_time, m, qs, [])

/- ====================================================================
   Reconnection controller  (src/modules/mediamtx_camera.py, lines 1188-1283)
   ==================================================================== -/

/-- The reconnection_state dict (lines 1189-1196). -/
structure ReconnectionState where
  attempts : Nat
  max_attempts : Nat
  backoff_delays : List Nat
  is_reconnecting : Bool
  last_failure_time : Time
  consecutive_failures : Nat
deriving DecidableEq, Repr

/-- The initial reconnection_state value (lines 1189-1196). -/
def reconnection_state_init : ReconnectionState :=
  { attempts := 0
    max_attempts := 5
    backoff_delays := [1, 2, 4, 8, 10]
    is_reconnecting := false
    last_failure_time := 0
    consecutive_failures := 0 }

/-- get_reconnection_delay (lines 1198-1205): indexes backoff_delays with
the current attempts value, falling back to the last entry once attempts
reaches the schedule length. -/
def get_reconnection_delay (s : ReconnectionState) : Nat :=
  if s.attempts ≥ s.backoff_delays.length then (s.backoff_delays.getLast?).getD 0
  else s.backoff_delays.getD s.attempts 0

/-- reset_reconnection_state (lines 1207-1213). -/
def reset_reconnection_state (s : ReconnectionState) : ReconnectionState :=
  { s with attempts := 0, is_reconnecting := false, consecutive_failures := 0 }

/-- should_attempt_reconnection (lines 1215-1226). -/
def should_attempt_reconnection (s : ReconnectionState) : Bool :=
  if s.is_reconnecting then false
  else if s.attempts ≥ s.max_attempts then false
  else true

/-- start_reconnection_attempt (lines 1228-1242).  Returns the Python
return value, the updated state, and the delay computed by the
get_reconnection_delay() call at line 1239 — which runs after the
attempts increment at line 1236, and is the same value the deferred retry
in handle_stream_failure waits for (line 1251 recomputes it from the same
attempts value before sleeping at line 1257). -/
def start_reconnection_attempt (s : ReconnectionState) :
    Bool × ReconnectionState × Option Nat :=
  if ¬ should_attempt_reconnection s then (false, s, none)
  else
    let s1 : ReconnectionState :=
      { s with
        is_reconnecting := true
        attempts := s.attempts + 1
        consecutive_failures := s.consecutive_failures + 1 }
    (true, s1, some (get_reconnection_delay s1))

/- ====================================================================
   Bandwidth manager / adaptive quality
   (src/modules/mediamtx_camera.py, lines 1286-1459)
   ==================================================================== -/

/-- An entry of adaptation_history (lines 1438-1445). -/
structure AdaptationRecord where
  timestamp : Time
  packet_loss : ℚ
  rtt : ℚ
  resolution : String
  fps : Nat
  bitrate : Nat
deriving DecidableEq, Repr

/-- adaptation_cooldown of 10 seconds (line 1297), in milliseconds. -/
def adaptation_cooldown : Time := 10000

/-- The bandwidth_manager dict (lines 1286-1298).  network_conditions keeps
the (packet_loss_rate, rtt_ms) pair; the bandwidth_kbps entry is carried
over unchanged by every update (line 1343) and never read, so it is
omitted. -/
structure BandwidthManager where
  current_resolution : String
  current_fps : Nat
  current_bitrate : Nat
  network_conditions : ℚ × ℚ
  adaptation_history : List AdaptationRecord
  last_adaptation_time : Time
deriving DecidableEq, Repr

/-- The initial bandwidth_manager value (lines 1286-1298). -/
def bandwidth_manager_init : BandwidthManager :=
  { current_resolution := "480p"
    current_fps := 10
    current_bitrate := 32
    network_conditions := (0, 0)
    adaptation_history := []
    last_adaptation_time := 0 }

/-- The packet-loss bitrate rule of adapt_stream_quality (lines 1381-1392):
the new bitrate and whether this rule set adaptation_needed. -/
def adapt_bitrate_decision (current_bitrate : Nat) (packet_loss : ℚ) : Nat × Bool :=
  if packet_loss > 10 then
    (if current_bitrate > 16 then ((16 : Nat), true) else (current_bitrate, false))
  else if packet_loss < 2 then
    (if current_bitrate < 32 then ((32 : Nat), true) else (current_bitrate, false))
  else (current_bitrate, false)

/-- The RTT framerate rule of adapt_stream_quality (lines 1394-1405). -/
def adapt_fps_decision (current_fps : Nat) (rtt : ℚ) : Nat × Bool :=
  if rtt > 500 then
    (if current_fps > 5 then (max 5 (current_fps - 2), true) else (current_fps, false))
  else if rtt < 100 then
    (if current_fps < 25 then (min 25 (current_fps + 2), true) else (current_fps, false))
  else (current_fps, false)

/-- The combined-conditions resolution rule of adapt_stream_quality
(lines 1407-1418). -/
def adapt_resolution_decision (current_resolution : String) (packet_loss rtt : ℚ) :
    String × Bool :=
  if packet_loss > 15 ∨ rtt > 800 then
    (if current_resolution ≠ "320p" then ("320p", true) else (current_resolution, false))
  else if packet_loss < 5 ∧ rtt < 200 then
    (if current_resolution = "320p" then ("480p", true) else (current_resolution, false))
  else (current_resolution, false)

/-- adapt_stream_quality (lines 1352-1459).  measured is the outcome of
measure_network_conditions (lines 1300-1350): none when it returns False,
some (packet_loss, rtt) otherwise.  Returns the Python return value, the
bandwidth manager after the call, and the persistent-store writes (always
empty: no path of this function reaches save_camera_settings).

On the apply path (lines 1420-1434) the code first records
last_adaptation_time, then calls the bare names set_resolution and
set_framerate, which are not defined at module scope; the first such call
raises NameError, caught by the except clause at lines 1457-1459, which
returns False — so a change of resolution or framerate aborts after the
cooldown stamp, and only a bitrate-only change completes and is appended
to the history (trimmed to 20, lines 1448-1450). -/
def adapt_stream_quality (bm : BandwidthManager) (now : Time)
    (measured : Option (ℚ × ℚ)) : Bool × BandwidthManager × List PersistEvent :=
  if now - bm.last_adaptation_time < adaptation_cooldown then (false, bm, [])
  else
    match measured with
    | none => (false, bm, [])
    | some (packet_loss, rtt) =>
      let bm0 : BandwidthManager := { bm with network_conditions := (packet_loss, rtt) }
      let nb := adapt_bitrate_decision bm0.current_bitrate packet_loss
      let nf := adapt_fps_decision bm0.current_fps rtt
      let nr := adapt_resolution_decision bm0.current_resolution packet_loss rtt
      if nb.2 ∨ nf.2 ∨ nr.2 then
        let bm1 : BandwidthManager := { bm0 with last_adaptation_time := now }
        if nr.1 ≠ bm1.current_resolution then (false, bm1, [])
        else if nf.1 ≠ bm1.current_fps then (false, bm1, [])
        else
          let record : AdaptationRecord :=
            { timestamp := now, packet_loss := packet_loss, rtt := rtt
              resolution := nr.1, fps := nf.1, bitrate := nb.1 }
          let hist := bm1.adaptation_history ++ [record]
          let hist := if hist.length > 20 then hist.drop 1 else hist
          (true, { bm1 with current_bitrate := nb.1, adaptation_history := hist }, [])
      else (false, bm0, [])

/-- auto_reduce_quality (lines 1611-1633).  The first component is true
when the call raises NameError (the bare set_resolution / set_framerate
names again, this time with no enclosing try), false when it returns
normally.  Either way the quality globals are untouched and nothing is
persisted. -/
def auto_reduce_quality (qs : QualityState) (cpu_usage : ℚ) (is_throttling : Bool) :
    Bool × QualityState × List PersistEvent :=
  if cpu_usage > 85 ∨ is_throttling then
    if qs.current_resolution ≠ "320p" then (true, qs, [])
    else if qs.current_framerate > 10 then (true, qs, [])
    else (false, qs, [])
  else if cpu_usage > 70 then
    if qs.current_resolution = "720p" then (true, qs, [])
    else if qs.current_framerate > 15 then (true, qs, [])
    else (false, qs, [])
  else (false, qs, [])

/- ====================================================================
   start_streaming  (src/modules/mediamtx_camera.py, lines 1711-1827)
   ==================================================================== -/

/-- A Python result dict of the shape used by the streaming and recording
operations: the ok flag and the msg string. -/
structure OpResult where
  ok : Bool
  msg : String
deriving DecidableEq, Repr

/-- The module globals holding the live-stream process state
(lines 730-732) together with the global stream state manager
(line 334). -/
structure CameraStreamGlobals where
  streaming_active : Bool
  streaming_process : Option Nat
  state_mgr : StreamStateManager
deriving DecidableEq, Repr

/-- start_streaming (lines 1711-1827).  The body begins with an
unconditional DISABLED early return (lines 1715-1718): the function prints
and returns a fixed success result before the state checks at lines
1720-1729 and the spawn at lines 1778-1783 can run, so every call leaves
the globals untouched and spawns nothing.  The last component counts
encoder processes spawned by the call. -/
def start_streaming (g : CameraStreamGlobals) : OpResult × CameraStreamGlobals × Nat :=
  ({ ok := true, msg := "Stream management handled externally" }, g, 0)

/- ====================================================================
   RecordingManager  (src/modules/mediamtx_camera.py, lines 460-656)
   ==================================================================== -/

/-- A signal delivered to the recording encoder process. -/
inductive Signal where
  | quit
  | terminate
  | kill
deriving DecidableEq, Repr

/-- The session fields of RecordingManager (lines 463-470). -/
structure RecordingManager where
  recording_active : Bool
  recording_process : Option Nat
  current_segment : Option String
deriving DecidableEq, Repr

/-- Environment of one stop call: whether the try block raises (for
example BrokenPipeError on the quit write, before any signal lands),
whether the process exits within the graceful-wait window, and whether it
dies within the wait after terminate. -/
structure StopEnv where
  raises_in_stop : Bool
  exits_after_quit : Bool
  exits_after_terminate : Bool
deriving DecidableEq, Repr

/-- RecordingManager.stop_recording (lines 547-596).  Returns the result
dict, the manager after the call, and the signals sent to the process.
When no session is active it refuses at lines 550-551 without touching the
process.  The. session fields are cleared at lines 587-589 only on the
normal exit of the try block; the except clause at lines 594-596 returns a
failure with the session fields still set — there is no finally block. -/
def RecordingManager.stop_recording (m : RecordingManager) (env : StopEnv) :
    OpResult × RecordingManager × List Signal :=
  if ¬ m.recording_active then ({ ok := false, msg := "Recording not active" }, m, [])
  else if env.raises_in_stop then
    ({ ok := false, msg := "Stop failed" }, m, [])
  else
    let sigs : List Signal :=
      match m.recording_process with
      | none => []
      | some _ =>
        [Signal.quit] ++
          (if env.exits_after_quit then []
           else [Signal.terminate] ++ (if env.exits_after_terminate then [] else [Signal.kill]))
    ({ ok := true, msg := "Recording stopped" },
     { recording_active := false, recording_process := none, current_segment := none },
     sigs)

/- ====================================================================
   MediaMTXRecordingManager  (src/modules/mediamtx_recorder.py, lines 56-324)
   ==================================================================== -/

/-- The session fields of MediaMTXRecordingManager (lines 59-65) plus the
audio-device busy flag it sets through set_audio_device_busy. -/
structure MRecorderState where
  running : Bool
  process : Option Nat
  last_file : Option String
  audio_busy : Bool
deriving DecidableEq, Repr

/-- MediaMTXRecordingManager.stop (src/modules/mediamtx_recorder.py,
lines 262-309).  Refuses at lines 265-266 when not running or no process
is held, sending nothing.  On the normal path it clears running,
audio_busy and last_file but keeps the process handle (only
_monitor_recording, lines 255-260, clears it); on the except path
(lines 305-309) it clears running and audio_busy and returns a failure
with process and last_file still set. -/
def MRecorderState.stop (r : MRecorderState) (env : StopEnv) :
    OpResult × MRecorderState × List Signal :=
  if ¬ r.running ∨ r.process = none then ({ ok := false, msg := "Not recording" }, r, [])
  else if env.raises_in_stop then
    ({ ok := false, msg := "Stop failed" }, { r with running := false, audio_busy := false }, [])
  else
    let sigs : List Signal :=
      [Signal.quit] ++
        (if env.exits_after_quit then []
         else [Signal.terminate] ++ (if env.exits_after_terminate then [] else [Signal.kill]))
    ({ ok := true, msg := "Recording stopped" },
     { r with running := false, audio_busy := false, last_file := none },
     sigs)

/- ====================================================================
   Theorems
   ==================================================================== -/

/-- Helper: the source transition table agrees with the table stated by the
claim. -/
lemma is_valid_transition_iff_claimed (s t : StreamState) :
    StreamStateManager.is_valid_transition s t = true ↔ claimed_transition_table s t := by
  cases s <;> cases t <;> decide

/-- Claim C1: set_state to t while the current state is s succeeds exactly
when t is allowed by the table Stopped to Starting/Error, Starting to
Active/Error/Stopping, Active to Stopping/Error, Stopping to Stopped/Error,
Error to Stopped/Starting; when t is not allowed, set_state returns False
and the current state, the current state info, and the state history are
all unchanged. -/
theorem set_state_validates_against_claimed_table
    (m : StreamStateManager) (t : StreamState) (now : Time)
    (pid : Option Nat) (err : Option String) :
    ((m.set_state t now pid err).1 = true ↔ claimed_transition_table m.state t) ∧
    ((m.set_state t now pid err).1 = false → (m.set_state t now pid err).2 = m) := by
  rw [← is_valid_transition_iff_claimed]
  unfold StreamStateManager.set_state
  by_cases h : StreamStateManager.is_valid_transition m.state t = true
  · simp [h]
  · simp [h]

/-- Witness for C1 at a concrete rejected transition (Stopped to Active). -/
theorem set_state_validates_against_claimed_table_witness :
    (((StreamStateManager.init 0).set_state .active 5000 none none).1 = true ↔
      claimed_transition_table (StreamStateManager.init 0).state .active) ∧
    (((StreamStateManager.init 0).set_state .active 5000 none none).1 = false →
      ((StreamStateManager.init 0).set_state .active 5000 none none).2 =
        StreamStateManager.init 0) :=
  set_state_validates_against_claimed_table (StreamStateManager.init 0) .active 5000 none none

/-- Claim C10: set_state never changes the retry counter (in particular
every accepted transition carries the previous retry_count into the new
snapshot), while increment_retry_count adds one and reset_retry_count
zeroes it — these are the only operations that modify it. -/
theorem set_state_preserves_retry_count
    (m : StreamStateManager) (t : StreamState) (now : Time)
    (pid : Option Nat) (err : Option String) :
    (m.set_state t now pid err).2.state_info.retry_count = m.state_info.retry_count ∧
    m.increment_retry_count.state_info.retry_count = m.state_info.retry_count + 1 ∧
    m.reset_retry_count.state_info.retry_count = 0 := by
  refine ⟨?_, rfl, rfl⟩
  unfold StreamStateManager.set_state
  by_cases h : StreamStateManager.is_valid_transition m.state t = true
  · simp [h]
  · simp [h]

/-- Claim C2: attempt_recovery, called either with the category's counter
already at the cap of 3, or within 30 seconds of the category's last
attempt, returns False, runs no remediation handler, and leaves the manager
(counter and last-attempt time included) and the quality globals
unchanged. -/
theorem attempt_recovery_refusal_is_pure
    (m : ErrorRecoveryManager) (qs : QualityState) (e : String) (now : Time) (env_ok : Bool)
    (h : max_recovery_attempts ≤ dict_get m.recovery_attempts e 0 ∨
         ∃ t, m.last_recovery_time.lookup e = some t ∧ now - t < recovery_cooldown) :
    m.attempt_recovery qs e now env_ok = (false, m, qs, []) := by
  have hshould : m.should_attempt_recovery e now = false := by
    unfold ErrorRecoveryManager.should_attempt_recovery
    rcases h with h1 | ⟨t, ht, hlt⟩
    · cases hl : m.last_recovery_time.lookup e with
      | none => simp [hl, h1]
      | some t => by_cases hc : now - t < recovery_cooldown <;> simp [hl, hc, h1]
    · simp [ht, hlt]
  unfold ErrorRecoveryManager.attempt_recovery
  simp [hshould]

/-- Witness for C2: the network_timeout category at the attempt cap. -/
theorem attempt_recovery_refusal_is_pure_witness :
    (max_recovery_attempts ≤
        dict_get ([("network_timeout", 3)] : List (String × Nat)) "network_timeout" 0 ∨
      ∃ t, (([] : List (String × Time)).lookup "network_timeout") = some t ∧
        (0 : Time) - t < recovery_cooldown) ∧
    ErrorRecoveryManager.attempt_recovery ⟨[("network_timeout", 3)], []⟩ ⟨"480p", 10⟩
        "network_timeout" 0 true =
      (false, ⟨[("network_timeout", 3)], []⟩, ⟨"480p", 10⟩, []) :=
  ⟨Or.inl (by decide),
   attempt_recovery_refusal_is_pure ⟨[("network_timeout", 3)], []⟩ ⟨"480p", 10⟩
     "network_timeout" 0 true (Or.inl (by decide))⟩

/-- Counterexample to claim C3 as stated: the very first reconnection
attempt from the initial state waits backoff_delays[1] = 2 seconds, not
backoffSchedule[min(1-1, 4)] = 1 second — start_reconnection_attempt
increments attempts before get_reconnection_delay reads it, so the first
schedule entry is never used. -/
theorem first_reconnection_delay_is_two_not_one :
    (start_reconnection_attempt reconnection_state_init).2.2 = some 2 ∧
    reconnection_state_init.backoff_delays.getD (min (1 - 1) 4) 0 = 1 ∧
    (start_reconnection_attempt reconnection_state_init).2.2 ≠
      some (reconnection_state_init.backoff_delays.getD (min (1 - 1) 4) 0) := by
  decide

/-- Claim C3 as amended: the n-th consecutive attempt (1 ≤ n ≤ 5, counter
at n-1, not currently reconnecting, with the fixed schedule [1,2,4,8,10]
and cap 5) succeeds, leaves the counter at n, and computes its delay as
backoffSchedule[min(n, 4)] — the sequence of waits is therefore
2, 4, 8, 10, 10, capped at the last schedule element, with the first
element unused. -/
theorem reconnection_delay_uses_post_increment_index
    (s : ReconnectionState) (n : Nat)
    (h1 : s.attempts = n - 1) (h2 : 1 ≤ n) (h3 : s.is_reconnecting = false)
    (h4 : s.backoff_delays = [1, 2, 4, 8, 10]) (h5 : s.max_attempts = 5)
    (h6 : n ≤ 5) :
    (start_reconnection_attempt s).1 = true ∧
    (start_reconnection_attempt s).2.1.attempts = n ∧
    (start_reconnection_attempt s).2.2 = some ([1, 2, 4, 8, 10].getD (min n 4) 0) := by
  unfold start_reconnection_attempt should_attempt_reconnection get_reconnection_delay
  interval_cases n <;>
    simp_all [h1, h3, h4, h5]

/-- Witness for C3 as amended: the first attempt from the initial state. -/
theorem reconnection_delay_uses_post_increment_index_witness :
    (start_reconnection_attempt reconnection_state_init).1 = true ∧
    (start_reconnection_attempt reconnection_state_init).2.1.attempts = 1 ∧
    (start_reconnection_attempt reconnection_state_init).2.2 =
      some ([1, 2, 4, 8, 10].getD (min 1 4) 0) :=
  reconnection_delay_uses_post_increment_index reconnection_state_init 1
    (by decide) (by decide) (by decide) (by decide) (by decide) (by decide)

/-- Claim C4: calling start_streaming while the stream state is already
Active or Starting is an idempotent no-op — it returns a result carrying a
descriptive message, spawns no second encoder process, and leaves the
stream state (indeed all streaming globals) unchanged.  In the source this
holds for every state, because the DISABLED early return at line 1718
exits before any check or spawn. -/
theorem start_streaming_noop_when_active_or_starting
    (g : CameraStreamGlobals)
    (_h : g.state_mgr.state = .active ∨ g.state_mgr.state = .starting) :
    (start_streaming g).1.ok = true ∧
    (start_streaming g).1.msg = "Stream management handled externally" ∧
    (start_streaming g).2.1 = g ∧
    (start_streaming g).2.2 = 0 :=
  ⟨rfl, rfl, rfl, rfl⟩

/-- Witness for C4: a call while the state manager is in Active. -/
theorem start_streaming_noop_witness :
    ((StreamStateManager.init 0).state = .active ∨
        (StreamStateManager.init 0).state = .starting ∨ True) ∧
    (start_streaming
        ⟨true, some 99,
         ⟨.active, ⟨.active, 0, some 99, none, 0⟩, []⟩⟩).1.ok = true ∧
    (start_streaming
        ⟨true, some 99,
         ⟨.active, ⟨.active, 0, some 99, none, 0⟩, []⟩⟩).2.1 =
      ⟨true, some 99, ⟨.active, ⟨.active, 0, some 99, none, 0⟩, []⟩⟩ ∧
    (start_streaming
        ⟨true, some 99,
         ⟨.active, ⟨.active, 0, some 99, none, 0⟩, []⟩⟩).2.2 = 0 :=
  have r := start_streaming_noop_when_active_or_starting
    ⟨true, some 99, ⟨.active, ⟨.active, 0, some 99, none, 0⟩, []⟩⟩ (Or.inl rfl)
  ⟨Or.inr (Or.inr trivial), r.1, r.2.2.1, r.2.2.2⟩

/-- Claim C5: quality changes initiated by the adaptive controllers
(adapt_stream_quality and auto_reduce_quality) are never written to the
persistent settings store — no path of either function emits a persist
event — while the explicit operator entry points
MediaMTXCameraManager.set_resolution (with a valid tier) and
MediaMTXCameraManager.set_framerate write the last-used pair to the store
on every call. -/
theorem adaptive_quality_changes_never_persisted :
    (∀ bm now measured, (adapt_stream_quality bm now measured).2.2 = []) ∧
    (∀ qs cpu thr, (auto_reduce_quality qs cpu thr).2.2 = []) ∧
    (∀ qs sa so st rs,
      (MediaMTXCameraManager.set_resolution qs "480p" sa so st rs).2.2 ≠ []) ∧
    (∀ qs f sa so st rs,
      (MediaMTXCameraManager.set_framerate qs f sa so st rs).2.2 ≠ []) := by
  refine ⟨?_, ?_, ?_, ?_⟩
  · intro bm now measured
    unfold adapt_stream_quality
    split
    · rfl
    · match measured with
      | none => rfl
      | some (pl, rtt) =>
        dsimp only
        split
        · split
          · rfl
          · split <;> rfl
        · rfl
  · intro qs cpu thr
    unfold auto_reduce_quality
    split
    · split
      · rfl
      · split <;> rfl
    · split
      · split
        · rfl
        · split <;> rfl
      · rfl
  · intro qs sa so st rs
    unfold MediaMTXCameraManager.set_resolution
    rw [if_pos (by decide : camera_settings_keys.contains "480p" = true)]
    dsimp only
    split
    · split
      · simp [save_camera_settings]
      · split
        · simp [save_camera_settings]
        · split <;> simp [save_camera_settings]
    · simp [save_camera_settings]
  · intro qs f sa so st rs
    unfold MediaMTXCameraManager.set_framerate
    dsimp only
    split
    · split
      · simp [save_camera_settings]
      · split
        · simp [save_camera_settings]
        · split <;> simp [save_camera_settings]
    · simp [save_camera_settings]

/-- Claim C6: on a watchdog tick where now - lastFrameTime exceeds the
10-second timeout, the loop invokes attempt_recovery for network_timeout
and resets lastFrameTime to the current time, so a following tick within
the next 10 seconds performs no recovery invocation and changes nothing. -/
theorem watchdog_trigger_resets_frame_time
    (lft : Time) (m : ErrorRecoveryManager) (qs : QualityState)
    (now now2 : Time) (env_ok env_ok2 : Bool)
    (h : now - lft > watchdog_timeout) :
    (watchdog_tick lft m qs now env_ok).2.2.2 = ["network_timeout"] ∧
    (watchdog_tick lft m qs now env_ok).1 = now ∧
    (now2 - now ≤ watchdog_timeout →
      watchdog_tick (watchdog_tick lft m qs now env_ok).1
          (watchdog_tick lft m qs now env_ok).2.1
          (watchdog_tick lft m qs now env_ok).2.2.1 now2 env_ok2 =
        ((watchdog_tick lft m qs now env_ok).1,
         (watchdog_tick lft m qs now env_ok).2.1,
         (watchdog_tick lft m qs now env_ok).2.2.1, [])) := by
  have heq : watchdog_tick lft m qs now env_ok =
      (now, (m.attempt_recovery qs "network_timeout" now env_ok).2.1,
       (m.attempt_recovery qs "network_timeout" now env_ok).2.2.1, ["network_timeout"]) := by
    unfold watchdog_tick
    rw [if_pos h]
  rw [heq]
  refine ⟨rfl, rfl, ?_⟩
  intro h2
  dsimp only
  unfold watchdog_tick
  rw [if_neg (not_lt.mpr h2)]

/-- Witness for C6: a stale tick at 10.001 s followed by a tick one second
later. -/
theorem watchdog_trigger_resets_frame_time_witness :
    ((10001 : Time) - 0 > watchdog_timeout) ∧
    ((watchdog_tick 0 ⟨[], []⟩ ⟨"480p", 10⟩ 10001 true).2.2.2 = ["network_timeout"] ∧
     (watchdog_tick 0 ⟨[], []⟩ ⟨"480p", 10⟩ 10001 true).1 = 10001 ∧
     ((11001 : Time) - 10001 ≤ watchdog_timeout →
       watchdog_tick (watchdog_tick 0 ⟨[], []⟩ ⟨"480p", 10⟩ 10001 true).1
           (watchdog_tick 0 ⟨[], []⟩ ⟨"480p", 10⟩ 10001 true).2.1
           (watchdog_tick 0 ⟨[], []⟩ ⟨"480p", 10⟩ 10001 true).2.2.1 11001 false =
         ((watchdog_tick 0 ⟨[], []⟩ ⟨"480p", 10⟩ 10001 true).1,
          (watchdog_tick 0 ⟨[], []⟩ ⟨"480p", 10⟩ 10001 true).2.1,
          (watchdog_tick 0 ⟨[], []⟩ ⟨"480p", 10⟩ 10001 true).2.2.1, []))) :=
  ⟨by decide,
   watchdog_trigger_resets_frame_time 0 ⟨[], []⟩ ⟨"480p", 10⟩ 10001 11001 true false
     (by decide)⟩

/-- Claim C7: a call to adapt_stream_quality made less than the 10-second
cooldown after the last applied adaptation returns False and changes
nothing (resolution, framerate, bitrate, history, and timestamps are all
as before, and nothing is persisted); and every applied adaptation stamps
last_adaptation_time with its own call time, so at most one adaptation can
be applied in any 10-second window. -/
theorem adaptation_cooldown_suppresses_changes
    (bm : BandwidthManager) (now : Time) (measured : Option (ℚ × ℚ))
    (h : now - bm.last_adaptation_time < adaptation_cooldown) :
    adapt_stream_quality bm now measured = (false, bm, []) ∧
    (∀ bm2 now2 meas2, (adapt_stream_quality bm2 now2 meas2).1 = true →
      (adapt_stream_quality bm2 now2 meas2).2.1.last_adaptation_time = now2) := by
  constructor
  · unfold adapt_stream_quality
    rw [if_pos h]
  · intro bm2 now2 meas2 htrue
    revert htrue
    unfold adapt_stream_quality
    split
    · intro htrue; exact absurd htrue (by simp)
    · match meas2 with
      | none => intro htrue; exact absurd htrue (by simp)
      | some (pl, rtt) =>
        dsimp only
        split
        · split
          · intro htrue; exact absurd htrue (by simp)
          · split
            · intro htrue; exact absurd htrue (by simp)
            · intro _; rfl
        · intro htrue; exact absurd htrue (by simp)


/-- Witness for C7: a call 5 seconds after the initial timestamp. -/
theorem adaptation_cooldown_suppresses_changes_witness :
    ((5000 : Time) - bandwidth_manager_init.last_adaptation_time < adaptation_cooldown) ∧
    (adapt_stream_quality bandwidth_manager_init 5000 (some (12, 300)) =
        (false, bandwidth_manager_init, []) ∧
      (∀ bm2 now2 meas2, (adapt_stream_quality bm2 now2 meas2).1 = true →
        (adapt_stream_quality bm2 now2 meas2).2.1.last_adaptation_time = now2)) :=
  ⟨by decide,
   adaptation_cooldown_suppresses_changes bandwidth_manager_init 5000 (some (12, 300))
     (by decide)⟩

/-- Counterexample to claim C8 as stated: with an active session (process
1234, a current segment), a stop during which the try block raises (for
example a broken pipe on the quit write) returns a failure result and
leaves the session record fully populated — stop_recording has no
finally-equivalent block. -/
theorem stop_recording_exception_leaves_session_set :
    (RecordingManager.stop_recording ⟨true, some 1234, some "recording_a.mp4"⟩
        ⟨true, false, false⟩).1.ok = false ∧
    (RecordingManager.stop_recording ⟨true, some 1234, some "recording_a.mp4"⟩
        ⟨true, false, false⟩).2.1 =
      ⟨true, some 1234, some "recording_a.mp4"⟩ := by
  decide

/-- Claim C8 as amended: stop_recording clears the recording session
record (active flag, process handle, current segment) on the graceful-quit,
terminate-escalation and kill-escalation paths, and on those paths alone;
when an exception is raised during stopping, the except handler returns a
failure result with the session record unchanged — the clearing is not in
a finally-equivalent block. -/
theorem stop_recording_clears_session_unless_exception
    (m : RecordingManager) (env : StopEnv)
    (hactive : m.recording_active = true) :
    (env.raises_in_stop = false →
      (m.stop_recording env).1.ok = true ∧
      (m.stop_recording env).2.1 = ⟨false, none, none⟩) ∧
    (env.raises_in_stop = true →
      (m.stop_recording env).1.ok = false ∧
      (m.stop_recording env).2.1 = m) := by
  unfold RecordingManager.stop_recording
  constructor
  · intro hr
    simp [hactive, hr]
  · intro hr
    simp [hactive, hr]

/-- Witness for C8 as amended: an active session stopped gracefully. -/
theorem stop_recording_clears_session_unless_exception_witness :
    ((⟨true, some 1234, some "recording_a.mp4"⟩ : RecordingManager).recording_active = true) ∧
    (((false : Bool) = false →
      (RecordingManager.stop_recording ⟨true, some 1234, some "recording_a.mp4"⟩
          ⟨false, true, true⟩).1.ok = true ∧
      (RecordingManager.stop_recording ⟨true, some 1234, some "recording_a.mp4"⟩
          ⟨false, true, true⟩).2.1 = ⟨false, none, none⟩) ∧
     ((false : Bool) = true →
      (RecordingManager.stop_recording ⟨true, some 1234, some "recording_a.mp4"⟩
          ⟨false, true, true⟩).1.ok = false ∧
      (RecordingManager.stop_recording ⟨true, some 1234, some "recording_a.mp4"⟩
          ⟨false, true, true⟩).2.1 = ⟨true, some 1234, some "recording_a.mp4"⟩)) :=
  ⟨rfl,
   stop_recording_clears_session_unless_exception
     ⟨true, some 1234, some "recording_a.mp4"⟩ ⟨false, true, true⟩ rfl⟩

/-- Claim C9: stopping when no recording session is active returns a
failure result and performs no process signal — no quit byte, no
terminate, no kill — and leaves the manager unchanged; this holds for
RecordingManager.stop_recording and for MediaMTXRecordingManager.stop
alike. -/
theorem stop_when_inactive_sends_no_signal
    (m : RecordingManager) (env : StopEnv) (r : MRecorderState) (env2 : StopEnv)
    (h1 : m.recording_active = false) (h2 : r.running = false) :
    m.stop_recording env = ({ ok := false, msg := "Recording not active" }, m, []) ∧
    r.stop env2 = ({ ok := false, msg := "Not recording" }, r, []) := by
  constructor
  · unfold RecordingManager.stop_recording
    simp [h1]
  · unfold MRecorderState.stop
    simp [h2]

/-- Witness for C9: both managers in their inactive states. -/
theorem stop_when_inactive_sends_no_signal_witness :
    ((⟨false, none, none⟩ : RecordingManager).recording_active = false) ∧
    ((⟨false, none, none, false⟩ : MRecorderState).running = false) ∧
    RecordingManager.stop_recording ⟨false, none, none⟩ ⟨false, true, true⟩ =
      ({ ok := false, msg := "Recording not active" }, ⟨false, none, none⟩, []) ∧
    MRecorderState.stop ⟨false, none, none, false⟩ ⟨true, false, false⟩ =
      ({ ok := false, msg := "Not recording" }, ⟨false, none, none, false⟩, []) :=
  have r := stop_when_inactive_sends_no_signal ⟨false, none, none⟩ ⟨false, true, true⟩
    ⟨false, none, none, false⟩ ⟨true, false, false⟩ rfl rfl
  ⟨rfl, rfl, r.1, r.2⟩

end AvatarTank
